import Mathlib

/-!
Verification of the sqlitepp typed access layer (`sqlitepp.hpp`) against its
natural-language specification.

The development shallowly embeds the wrapper's logic.  The native engine
(sqlite3) is an external collaborator: engine cells are modelled by
`SqlValue`, and the `sqlite3_column_*` accessors are modelled on the
type-faithful fragment that the wrapper's claims exercise (a cell read at the
type it was stored with, plus the NULL marker).  Cross-type engine coercions
are outside the modelled boundary.  All functions named after the source
(`loader_*`, `bind*`, `step`, `atomic`, `database_ctor`, `openflags_*`)
are transcribed from `sqlitepp.hpp`.
-/

set_option autoImplicit false

namespace Sqlitepp

/-- An engine cell value: sqlite3's five storage classes.  Text and blob
payloads are byte lists; integers are the engine's 64-bit integer storage. -/
inductive SqlValue where
  | integer (i : Int)
  | real (r : Float)
  | text (bytes : List Nat)
  | blobv (bytes : List Nat)
  | nullv

/-- Native column-type codes from the engine's header:
SQLITE_INTEGER = 1, SQLITE_FLOAT = 2, SQLITE_TEXT = 3, SQLITE_BLOB = 4,
SQLITE_NULL = 5. -/
def SQLITE_NULL : Nat := 5

/-- Engine: `sqlite3_column_type`, the storage class of the cell. -/
def sqlite3_column_type : SqlValue → Nat
  | .integer _ => 1
  | .real _ => 2
  | .text _ => 3
  | .blobv _ => 4
  | .nullv => 5

/-- Engine: `sqlite3_column_int64` on the type-faithful fragment
(integer cell yields its value; NULL yields 0 as sqlite3 documents;
other coercions outside the modelled boundary are defaulted to 0). -/
def sqlite3_column_int64 : SqlValue → Int
  | .integer i => i
  | _ => 0

/-- Two's-complement truncation of a 64-bit integer to 32 bits, as performed
by the C cast inside `sqlite3_column_int`. -/
def toInt32 (i : Int) : Int := (i + 2 ^ 31) % 2 ^ 32 - 2 ^ 31

/-- Engine: `sqlite3_column_int` is `sqlite3_column_int64` cast to a 32-bit
integer. -/
def sqlite3_column_int (v : SqlValue) : Int := toInt32 (sqlite3_column_int64 v)

/-- Engine: `sqlite3_column_double` on the type-faithful fragment. -/
def sqlite3_column_double : SqlValue → Float
  | .real r => r
  | _ => 0

/-- Engine: `sqlite3_column_text` on the type-faithful fragment: the byte
contents of a text cell. -/
def sqlite3_column_text : SqlValue → List Nat
  | .text s => s
  | _ => []

/-- Engine: `sqlite3_column_blob` on the type-faithful fragment: the raw
bytes of a blob (or text) cell. -/
def sqlite3_column_blob : SqlValue → List Nat
  | .blobv b => b
  | .text s => s
  | _ => []

/-- Engine: `sqlite3_column_bytes`, the byte length of the cell's payload. -/
def sqlite3_column_bytes : SqlValue → Nat
  | .text s => s.length
  | .blobv b => b.length
  | _ => 0

/-- `loader<std::int32_t>::get`: returns `sqlite3_column_int(stmt, index)`. -/
def loader_int32 (c : SqlValue) : Int := sqlite3_column_int c

/-- `loader<std::int64_t>::get`: returns `sqlite3_column_int64(stmt, index)`. -/
def loader_int64 (c : SqlValue) : Int := sqlite3_column_int64 c

/-- `loader<double>::get`: returns `sqlite3_column_double(stmt, index)`. -/
def loader_double (c : SqlValue) : Float := sqlite3_column_double c

/-- `loader<std::string>::get`: reads `length = sqlite3_column_bytes` and the
text pointer, and builds a string from the first `length` bytes. -/
def loader_string (c : SqlValue) : List Nat :=
  (sqlite3_column_text c).take (sqlite3_column_bytes c)

/-- `loader<std::optional<T>>::get`: yields absent iff the native column type
is `SQLITE_NULL`, otherwise recursively decodes `T`.  The inner decoder is a
parameter, mirroring the C++ template parameter `T`. -/
def loader_optional {α : Type} (loadT : SqlValue → α) (c : SqlValue) : Option α :=
  if sqlite3_column_type c = SQLITE_NULL then none
  else some (loadT c)

/-- The single decode failure of the wrapper:
`throw std::logic_error("size of blob is not divisible by size of type")`. -/
inductive DecodeError where
  | sizeMismatch
deriving DecidableEq

/-- Reinterpretation of a byte list as consecutive `S`-byte elements
(the pointer-cast `reinterpret_cast<const T*>` view of the blob memory). -/
def chunkList {α : Type} (S : Nat) (l : List α) : List (List α) :=
  if _h : S = 0 ∨ l.length = 0 then []
  else l.take S :: chunkList S (l.drop S)
termination_by l.length
decreasing_by
  simp only [not_or] at _h
  simp only [List.length_drop]
  omega

/-- `loader<std::vector<T>>::get` with `S = sizeof(T)`: reads the byte
length, fails when it is not a multiple of `S`, otherwise materialises the
`length / S` elements from the raw bytes. -/
def loader_vector (S : Nat) (c : SqlValue) : Except DecodeError (List (List Nat)) :=
  let length := sqlite3_column_bytes c
  if length % S ≠ 0 then .error .sizeMismatch
  else .ok (chunkList S ((sqlite3_column_blob c).take length))

/-- `loader<blob<T>>::get` for a non-`void` element type with
`S = sizeof(T)`: same divisibility check, and on success the constructed
`blob` view carries `length / S` as its element count.  The model returns
that count. -/
def loader_blob (S : Nat) (c : SqlValue) : Except DecodeError Nat :=
  let length := sqlite3_column_bytes c
  if length % S ≠ 0 then .error .sizeMismatch
  else .ok (length / S)

/-- `loader<blob<void>>::get`: the raw-bytes view, no divisibility check;
the view's size is the raw byte length. -/
def loader_blob_void (c : SqlValue) : Nat := sqlite3_column_bytes c

/-- A parameter value passed to one `statement::bind` overload: the closed
variant {32-bit int, 64-bit int, double, text byte range, null}. -/
inductive ParamValue where
  | i32 (v : Int)
  | i64 (v : Int)
  | real (v : Float)
  | text (bytes : List Nat)
  | nullp

/-- The engine cell stored for a bound parameter when the insert executes:
`sqlite3_bind_int`/`sqlite3_bind_int64` store 64-bit integer storage (the
32-bit argument is sign-extended, value preserved), `sqlite3_bind_double`
stores a real, `sqlite3_bind_text` stores exactly the given byte range
(explicit length, no terminator), `sqlite3_bind_null` stores NULL. -/
def bindStore : ParamValue → SqlValue
  | .i32 v => .integer v
  | .i64 v => .integer v
  | .real v => .real v
  | .text b => .text b
  | .nullp => .nullv

/-- One call into the native bind API: a 1-based parameter position and the
value passed. -/
structure BindCall where
  position : Nat
  value : ParamValue

/-- `statement::bind(index, item)`: every overload forwards to the native
bind primitive at position `index + 1`. -/
def bind (index : Nat) (item : ParamValue) : BindCall :=
  ⟨index + 1, item⟩

/-- `statement::bind_multiple_impl(index_sequence<I...>, args...)`: the fold
expression `(bind(I, args), ...)` issues `bind i a` left to right with
`i = 0, 1, ...` offset by the starting index. -/
def bind_multiple_impl (i : Nat) : List ParamValue → List BindCall
  | [] => []
  | a :: rest => bind i a :: bind_multiple_impl (i + 1) rest

/-- `statement::bind_multiple(args...)`: binds the argument list positionally
in call order starting at index 0. -/
def bind_multiple (args : List ParamValue) : List BindCall :=
  bind_multiple_impl 0 args

/-- Native result code `SQLITE_ROW` (100): a row is available. -/
def SQLITE_ROW : Nat := 100

/-- Native result code `SQLITE_DONE` (101): no more rows. -/
def SQLITE_DONE : Nat := 101

/-- `statement::step` with any other native outcome throws
(`throw std::exception()`): a fatal execution error for the statement. -/
inductive StepError where
  | fatal
deriving DecidableEq

/-- `statement::step()`: one call to `sqlite3_step`; `SQLITE_ROW` yields
`true`, `SQLITE_DONE` yields `false`, anything else throws.  The model
consumes exactly one engine result code: there is no retry loop. -/
def step (result : Nat) : Except StepError Bool :=
  if result = SQLITE_ROW then .ok true
  else if result = SQLITE_DONE then .ok false
  else .error .fatal

/-- `database::atomic`'s `begin_sql` for counter value `n`:
`"savepoint s" + std::to_string(n)`. -/
def begin_sql (n : Nat) : String := "savepoint s" ++ toString n

/-- `database::atomic`'s `rollback_sql` for counter value `n`:
`"rollback transaction to savepoint s" + std::to_string(n)`. -/
def rollback_sql (n : Nat) : String := "rollback transaction to savepoint s" ++ toString n

/-- `database::atomic`'s `commit_sql` for counter value `n`:
`"release savepoint s" + std::to_string(n)`. -/
def commit_sql (n : Nat) : String := "release savepoint s" ++ toString n

/-- Observable outcome of one `database::atomic` call: the control SQL it
issued in order, the connection counter afterwards, and the propagated
result of the block. -/
structure AtomicOutcome (ε : Type) where
  issued : List String
  next_transaction_id : Nat
  result : Except ε Unit

/-- `database::atomic(func)`: reads and post-increments `transaction_id`,
issues `begin_sql`, runs the work; on success issues `commit_sql`, on an
exception issues `rollback_sql` and re-throws the original exception
(`throw;`).  The caller-supplied work is modelled by its outcome
`Except ε Unit`; the control statements themselves (fixed, valid SQL) are
modelled as executing successfully, matching the specification's scope. -/
def atomic {ε : Type} (transaction_id : Nat) (work : Except ε Unit) : AtomicOutcome ε :=
  match work with
  | .ok _ =>
      ⟨[begin_sql transaction_id, commit_sql transaction_id], transaction_id + 1, .ok ()⟩
  | .error e =>
      ⟨[begin_sql transaction_id, rollback_sql transaction_id], transaction_id + 1, .error e⟩

/-- A sequence of `atomic` invocations on one connection, threading the
connection's `transaction_id` counter: returns the savepoint ids allocated,
in order, and the final counter value. -/
def atomic_seq {ε : Type} (transaction_id : Nat) : List (Except ε Unit) → List Nat × Nat
  | [] => ([], transaction_id)
  | w :: ws =>
      let out := atomic transaction_id w
      let rest := atomic_seq out.next_transaction_id ws
      (transaction_id :: rest.1, rest.2)

/-- What the engine's `sqlite3_open_v2` reported for one open attempt: its
result code, and whether it allocated a connection handle.  Per the engine's
documented contract, a failed open (other than out-of-memory) still
allocates a handle that must be released with `sqlite3_close`. -/
structure EngineOpenResult where
  rc : Nat
  handle_allocated : Bool

/-- The error thrown by the constructor:
`throw std::invalid_argument("database file not found")`. -/
inductive OpenError where
  | invalid_argument (msg : String)
deriving DecidableEq

/-- `database::database(filename, flags)`: a single call to
`sqlite3_open_v2`; on a nonzero result code it throws immediately — without
passing the handle the engine allocated to `sqlite3_close`, and with the
object unconstructed so no destructor will ever release it.  The model
returns the construction result paired with whether an unreleased live
native handle remains after the attempt (on success the handle is owned by
the object and released by its destructor, so none remains unowned). -/
def database_ctor (eng : EngineOpenResult) : Except OpenError Unit × Bool :=
  if eng.rc ≠ 0 then
    (.error (.invalid_argument "database file not found"), eng.handle_allocated)
  else
    (.ok (), false)

/-- `openflags::readonly` = `SQLITE_OPEN_READONLY` (0x1). -/
def openflags_readonly : Nat := 0x1

/-- `openflags::readwrite` = `SQLITE_OPEN_READWRITE` (0x2). -/
def openflags_readwrite : Nat := 0x2

/-- `openflags::create` = `SQLITE_OPEN_CREATE` (0x4). -/
def openflags_create : Nat := 0x4

/-- `openflags::uri` = `SQLITE_OPEN_URI` (0x40). -/
def openflags_uri : Nat := 0x40

/-- `openflags::nomutex` = `SQLITE_OPEN_NOMUTEX` (0x8000). -/
def openflags_nomutex : Nat := 0x8000

/-- `openflags::fullmutex` = `SQLITE_OPEN_FULLMUTEX` (0x10000). -/
def openflags_fullmutex : Nat := 0x10000

/-- `openflags::sharedcache` = `SQLITE_OPEN_SHAREDCACHE` (0x20000). -/
def openflags_sharedcache : Nat := 0x20000

/-- `openflags::privatecach` = `SQLITE_OPEN_PRIVATECACHE` (0x40000). -/
def openflags_privatecache : Nat := 0x40000

/-- `operator|(openflags, openflags)`: bitwise or of the underlying values. -/
def openflags_or (a b : Nat) : Nat := a ||| b

/-- The defaulted `flags` argument of the constructor:
`openflags::readwrite | openflags::create`. -/
def default_openflags : Nat := openflags_or openflags_readwrite openflags_create

/-! ## Helper lemmas -/

theorem atomic_next_id {ε : Type} (tid : Nat) (w : Except ε Unit) :
    (atomic tid w).next_transaction_id = tid + 1 := by
  cases w <;> rfl

theorem chunkList_length_mul {α : Type} (S : Nat) (hS : 0 < S) :
    ∀ (k : Nat) (l : List α), l.length = S * k → (chunkList S l).length = k := by
  intro k
  induction k with
  | zero =>
      intro l h
      rw [chunkList]
      simp only [Nat.mul_zero] at h
      simp [h]
  | succ k ih =>
      intro l h
      have hSk : 0 < S * (k + 1) := Nat.mul_pos hS k.succ_pos
      have hlen : 0 < l.length := h ▸ hSk
      rw [chunkList, dif_neg (by omega)]
      have hdrop : (l.drop S).length = S * k := by
        simp [List.length_drop, h, Nat.mul_succ]
      simp [ih (l.drop S) hdrop]

theorem atomic_seq_ids {ε : Type} :
    ∀ (ws : List (Except ε Unit)) (tid : Nat),
      (atomic_seq tid ws).1 = List.range' tid ws.length
      ∧ (atomic_seq tid ws).2 = tid + ws.length := by
  intro ws
  induction ws with
  | nil => intro tid; simp [atomic_seq]
  | cons w ws ih =>
      intro tid
      have h := ih (tid + 1)
      refine ⟨?_, ?_⟩
      · simp [atomic_seq, atomic_next_id, h.1, List.range'_succ]
      · simp [atomic_seq, atomic_next_id, h.2]
        omega

theorem bind_multiple_impl_get (args : List ParamValue) :
    ∀ (j i : Nat),
      (bind_multiple_impl j args)[i]? = args[i]?.map (fun a => BindCall.mk (j + i + 1) a) := by
  induction args with
  | nil => intro j i; simp [bind_multiple_impl]
  | cons a rest ih =>
      intro j i
      cases i with
      | zero => simp [bind_multiple_impl, bind]
      | succ i =>
          have e : j + 1 + i = j + (i + 1) := by omega
          simp only [bind_multiple_impl, List.getElem?_cons_succ]
          rw [ih (j + 1) i, e]

theorem bind_multiple_impl_take (args : List ParamValue) :
    ∀ (j K : Nat),
      (bind_multiple_impl j args).take K = bind_multiple_impl j (args.take K) := by
  induction args with
  | nil => intro j K; simp [bind_multiple_impl]
  | cons a rest ih =>
      intro j K
      cases K with
      | zero => simp [bind_multiple_impl]
      | succ K => simp [bind_multiple_impl, ih (j + 1) K]

/-! ## Claim theorems -/

/-- C1: for every unit of work run under `database::atomic` with counter
value `n`: the manager first issues the savepoint statement for the fresh
id `n`; if the work completes without error it issues the release statement
for `s<n>`; if the work raises an error it issues the rollback-to-savepoint
statement for `s<n>` and re-raises the original error unchanged, never
masking or wrapping it. -/
theorem atomic_block_protocol {ε : Type} (n : Nat) (work : Except ε Unit) :
    (atomic n work).issued.head? = some (begin_sql n)
    ∧ (∀ u, work = .ok u →
        (atomic n work).issued = [begin_sql n, commit_sql n]
        ∧ (atomic n work).result = .ok ())
    ∧ (∀ e, work = .error e →
        (atomic n work).issued = [begin_sql n, rollback_sql n]
        ∧ (atomic n work).result = .error e) := by
  cases work <;> simp [atomic]

/-- Witness for C1 at a concrete failing block: the savepoint is rolled back
and the original error is re-raised unchanged. -/
theorem atomic_block_protocol_witness :
    (atomic 3 (Except.error "boom" : Except String Unit)).issued
        = [begin_sql 3, rollback_sql 3]
    ∧ (atomic 3 (Except.error "boom" : Except String Unit)).result = .error "boom" :=
  (atomic_block_protocol 3 (Except.error "boom")).2.2 "boom" rfl

/-- C2: decoding a blob column of byte length `L` as a sequence (or
blob-of-T) with declared element size `S > 0` succeeds with exactly `L / S`
elements iff `L mod S = 0` (including `L = 0` with zero elements), and
otherwise fails with the size-mismatch decode error, returning no partial
result. -/
theorem blob_sequence_size_validation (S : Nat) (hS : 0 < S) (bytes : List Nat) :
    (bytes.length % S = 0 →
        loader_vector S (SqlValue.blobv bytes) = .ok (chunkList S bytes)
        ∧ (chunkList S bytes).length = bytes.length / S
        ∧ loader_blob S (SqlValue.blobv bytes) = .ok (bytes.length / S))
    ∧ (bytes.length % S ≠ 0 →
        loader_vector S (SqlValue.blobv bytes) = .error .sizeMismatch
        ∧ loader_blob S (SqlValue.blobv bytes) = .error .sizeMismatch) := by
  constructor
  · intro h
    have hk : bytes.length = S * (bytes.length / S) :=
      (Nat.mul_div_cancel' (Nat.dvd_of_mod_eq_zero h)).symm
    refine ⟨?_, chunkList_length_mul S hS _ bytes hk, ?_⟩
    · simp [loader_vector, sqlite3_column_bytes, sqlite3_column_blob, h]
    · simp [loader_blob, sqlite3_column_bytes, h]
  · intro h
    exact ⟨by simp [loader_vector, sqlite3_column_bytes, h],
           by simp [loader_blob, sqlite3_column_bytes, h]⟩

/-- Witness for C2: length 8 with element size 4 yields 2 elements, length 0
yields 0 elements, and length 3 with element size 4 fails. -/
theorem blob_sequence_size_validation_witness :
    (loader_vector 4 (SqlValue.blobv [0, 1, 2, 3, 4, 5, 6, 7])
        = .ok (chunkList 4 [0, 1, 2, 3, 4, 5, 6, 7])
     ∧ (chunkList 4 [0, 1, 2, 3, 4, 5, 6, 7]).length = 2
     ∧ loader_blob 4 (SqlValue.blobv [0, 1, 2, 3, 4, 5, 6, 7]) = .ok 2)
    ∧ (loader_vector 4 (SqlValue.blobv []) = .ok (chunkList 4 ([] : List Nat))
       ∧ (chunkList 4 ([] : List Nat)).length = 0)
    ∧ (loader_vector 4 (SqlValue.blobv [0, 1, 2]) = .error .sizeMismatch
       ∧ loader_blob 4 (SqlValue.blobv [0, 1, 2]) = .error .sizeMismatch) := by
  have h8 := (blob_sequence_size_validation 4 (by decide) [0, 1, 2, 3, 4, 5, 6, 7]).1 (by decide)
  have h0 := (blob_sequence_size_validation 4 (by decide) []).1 (by decide)
  have h3 := (blob_sequence_size_validation 4 (by decide) [0, 1, 2]).2 (by decide)
  exact ⟨⟨h8.1, h8.2.1, h8.2.2⟩, ⟨h0.1, h0.2.1⟩, h3⟩

/-- C3: for each supported scalar type (32-bit integer within its range,
64-bit integer, double, text), binding the value and decoding the stored
column back at the same type yields the original value. -/
theorem scalar_bind_decode_round_trip (v32 : Int) (h32 : -2 ^ 31 ≤ v32 ∧ v32 < 2 ^ 31)
    (v64 : Int) (d : Float) (s : List Nat) :
    loader_int32 (bindStore (.i32 v32)) = v32
    ∧ loader_int64 (bindStore (.i64 v64)) = v64
    ∧ loader_double (bindStore (.real d)) = d
    ∧ loader_string (bindStore (.text s)) = s := by
  refine ⟨?_, rfl, rfl,
    by simp [loader_string, bindStore, sqlite3_column_text, sqlite3_column_bytes]⟩
  obtain ⟨h1, h2⟩ := h32
  simp only [loader_int32, bindStore, sqlite3_column_int, sqlite3_column_int64, toInt32]
  omega

/-- Witness for C3 at concrete values of each scalar type. -/
theorem scalar_bind_decode_round_trip_witness :
    loader_int32 (bindStore (.i32 (-5))) = -5
    ∧ loader_int64 (bindStore (.i64 4294967296)) = 4294967296
    ∧ loader_double (bindStore (.real 1.5)) = 1.5
    ∧ loader_string (bindStore (.text [104, 105])) = [104, 105] :=
  scalar_bind_decode_round_trip (-5) (by norm_num) 4294967296 1.5 [104, 105]


/-- C4 as stated is false: at counter value 0 the issued control strings are
not the uppercase `SAVEPOINT s0` / `RELEASE SAVEPOINT s0` /
`ROLLBACK TO SAVEPOINT s0` forms. -/
theorem savepoint_sql_uppercase_counterexample :
    ¬ (begin_sql 0 = "SAVEPOINT s0"
       ∧ commit_sql 0 = "RELEASE SAVEPOINT s0"
       ∧ rollback_sql 0 = "ROLLBACK TO SAVEPOINT s0") := by
  decide

/-- C4 amended: the savepoint control SQL strings issued for counter value
`n` are exactly `savepoint s<n>` and, depending on the outcome of the work,
`release savepoint s<n>` or `rollback transaction to savepoint s<n>`
(lowercase, with `transaction` in the rollback form), where `<n>` is the
decimal rendering of the counter value. -/
theorem savepoint_sql_strings {ε : Type} (n : Nat) (work : Except ε Unit) :
    (atomic n work).issued =
      match work with
      | .ok _ => ["savepoint s" ++ Nat.repr n, "release savepoint s" ++ Nat.repr n]
      | .error _ =>
          ["savepoint s" ++ Nat.repr n, "rollback transaction to savepoint s" ++ Nat.repr n] := by
  cases work <;> rfl

/-- C5: `statement::step` returns `true` iff the native engine reports
`SQLITE_ROW`, `false` iff it reports `SQLITE_DONE`, and for any other native
outcome raises the fatal statement error, from a single native call with no
internal retry. -/
theorem step_result_semantics (result : Nat) :
    (step result = .ok true ↔ result = SQLITE_ROW)
    ∧ (step result = .ok false ↔ result = SQLITE_DONE)
    ∧ (result ≠ SQLITE_ROW → result ≠ SQLITE_DONE → step result = .error .fatal) := by
  unfold step
  split_ifs with h1 h2 <;> simp_all [SQLITE_ROW, SQLITE_DONE]

/-- Witness for C5 at the concrete native codes 100 (row), 101 (done) and
19 (constraint violation). -/
theorem step_result_semantics_witness :
    step 100 = .ok true ∧ step 101 = .ok false ∧ step 19 = .error .fatal :=
  ⟨(step_result_semantics 100).1.mpr rfl,
   (step_result_semantics 101).2.1.mpr rfl,
   (step_result_semantics 19).2.2 (by decide) (by decide)⟩

/-- C6: decoding a column as `optional<T>` yields absent iff the native
column type is the NULL marker (which holds exactly for the NULL cell), and
for a non-NULL column yields present wrapping exactly the plain-`T` decode
of the same column, uniformly in the inner decoder. -/
theorem optional_null_decode {α : Type} (loadT : SqlValue → α) (c : SqlValue) :
    (loader_optional loadT c = none ↔ sqlite3_column_type c = SQLITE_NULL)
    ∧ (sqlite3_column_type c = SQLITE_NULL ↔ c = SqlValue.nullv)
    ∧ (sqlite3_column_type c ≠ SQLITE_NULL → loader_optional loadT c = some (loadT c)) := by
  refine ⟨?_, ?_, ?_⟩
  · unfold loader_optional
    split_ifs with h <;> simp [h]
  · cases c <;> simp [sqlite3_column_type, SQLITE_NULL]
  · intro h
    simp [loader_optional, h]

/-- Witness for C6: a NULL cell decodes to absent; an integer cell decodes
to present wrapping the plain decode. -/
theorem optional_null_decode_witness :
    loader_optional loader_int64 SqlValue.nullv = none
    ∧ loader_optional loader_int64 (SqlValue.integer 7) = some 7 :=
  ⟨(optional_null_decode loader_int64 SqlValue.nullv).1.mpr rfl,
   (optional_null_decode loader_int64 (SqlValue.integer 7)).2.2 (by decide)⟩

/-- C7: over any sequence of `atomic` invocations on one connection the
allocated savepoint ids are consecutive from the starting counter, pairwise
strictly increasing (each id strictly greater than every earlier one), never
reused, and the counter is never reset (it ends at start + number of
invocations). -/
theorem savepoint_ids_strictly_increasing {ε : Type} (tid : Nat) (ws : List (Except ε Unit)) :
    (atomic_seq tid ws).1 = List.range' tid ws.length
    ∧ List.Pairwise (· < ·) (atomic_seq tid ws).1
    ∧ (atomic_seq tid ws).1.Nodup
    ∧ (atomic_seq tid ws).2 = tid + ws.length := by
  obtain ⟨h1, h2⟩ := atomic_seq_ids ws tid
  refine ⟨h1, ?_, ?_, h2⟩
  · rw [h1]
    exact List.pairwise_lt_range' tid ws.length
  · rw [h1]
    exact (List.pairwise_lt_range' tid ws.length).imp Nat.ne_of_lt

/-- C8: `bind_multiple` binds a heterogeneous argument list positionally in
call order, the argument at zero-based position `i` going to 1-based native
parameter position `i + 1`; the calls for the first `K` arguments form the
prefix of the call sequence, so whatever happens at element `K`, elements
`0 .. K-1` are already bound. -/
theorem bind_multiple_positional (args : List ParamValue) :
    (∀ i : Nat, (bind_multiple args)[i]? = args[i]?.map (fun a => BindCall.mk (i + 1) a))
    ∧ (∀ K : Nat, (bind_multiple args).take K = bind_multiple (args.take K)) := by
  constructor
  · intro i
    simpa [bind_multiple] using bind_multiple_impl_get args 0 i
  · intro K
    exact bind_multiple_impl_take args 0 K

/-- C9 fails on the code: at a failed open (engine result code 14,
`SQLITE_CANTOPEN`, with the handle allocated as the engine documents for
non-out-of-memory failures) the constructor raises the open error without
retry, but the allocated native handle is never passed to `sqlite3_close`,
so a live handle remains — contradicting the claim that none does. -/
theorem open_failure_leaves_live_handle :
    database_ctor ⟨14, true⟩
      = (Except.error (OpenError.invalid_argument "database file not found"), true) := rfl

/-- C10: the defaulted open flags are exactly the read-write and
create-if-missing flags combined: value 6, containing the readwrite and
create bits and no other defined open flag bit. -/
theorem default_openflags_readwrite_create :
    default_openflags = openflags_or openflags_readwrite openflags_create
    ∧ default_openflags = 6
    ∧ default_openflags &&& openflags_readonly = 0
    ∧ default_openflags &&& openflags_readwrite = openflags_readwrite
    ∧ default_openflags &&& openflags_create = openflags_create
    ∧ default_openflags &&& (openflags_nomutex ||| openflags_fullmutex |||
        openflags_sharedcache ||| openflags_privatecache ||| openflags_uri) = 0 := by
  decide

end Sqlitepp
